import Mathlib

/-!
Verification development for the Vendure → Sanity CMS synchronization plugin
(`src/plugins/cms/services/cms-sync.service.ts` and
`src/plugins/cms/services/sanity.service.ts`).

The publisher (SanityService) is modelled as explicit state passing over a
`RemoteState` record holding the remote document store, a fresh-id counter,
two failure flags (whether GET queries respectively POST mutations fail with
a non-2xx status), and a log of every outbound HTTP request.  Fallible code
returns `Except String`.  The bulk sweep (CmsSyncService.syncAllEntitiesToCmsGeneric)
is modelled with an outcome oracle `fails : Int → Nat → Option String` giving,
for each entity id and (1-based) attempt number, whether that dispatch of the
per-entity sync method throws, and with which message.
-/

namespace Vendure

/-- A per-language translation of a catalog entity: language code, display
name and URL slug. -/
structure Translation where
  languageCode : String
  name : String
  slug : String
deriving DecidableEq

/-- Modelled from the spec: `TranslationUtils.getTranslationByLanguage`
(the file `src/plugins/cms/utils/translation.utils.ts` is not part of the
provided sources).  Spec §3/§4.2: translations are per-language records; the
lookup returns the entity's translation for the given language, or nothing. -/
def getTranslationByLanguage (translations : List Translation) (lang : String) :
    Option Translation :=
  translations.find? (fun t => t.languageCode == lang)

/-- Modelled from the spec: `TranslationUtils.getSlugByLanguage` — the
orchestrator's tolerant slug lookup, "returns undefined on missing
translation" (spec §4.2 item 1). -/
def getSlugByLanguage (translations : List Translation) (lang : String) :
    Option String :=
  (getTranslationByLanguage translations lang).map (fun t => t.slug)

/-- Modelled from the spec: `TranslationUtils.validateTranslations` — the
publisher-side check, "Validates that the entity has a translation in the
given language; if not, this is treated as a caller contract violation
(validation throws)" (spec §4.2 item 1). -/
def validateTranslations (translations : List Translation) (lang : String) :
    Except String Unit :=
  match getTranslationByLanguage translations lang with
  | some _ => Except.ok ()
  | none => Except.error ("No translation found for language " ++ lang)

/-- A catalog product as loaded by the sync code: id plus translations. -/
structure Product where
  id : Int
  translations : List Translation
deriving DecidableEq

/-- A catalog product variant, loaded with its translations and its parent
product's translations (relations `product`, `product.translations`). -/
structure ProductVariant where
  id : Int
  productId : Int
  translations : List Translation
  productTranslations : List Translation
deriving DecidableEq

/-- A catalog collection: id plus translations. -/
structure Collection where
  id : Int
  translations : List Translation
deriving DecidableEq

namespace DOCUMENT_TYPE

/-- `DOCUMENT_TYPE.product` from sanity.service.ts. -/
def product : String := "vendureProduct"

/-- `DOCUMENT_TYPE.product_variant` from sanity.service.ts. -/
def product_variant : String := "vendureProductVariant"

/-- `DOCUMENT_TYPE.collection` from sanity.service.ts. -/
def collection : String := "vendureCollection"

end DOCUMENT_TYPE

/-- The `slug` object of a pushed document: `\x7bcurrent: <slug>\x7d`, where
the slug may be absent (TS `string | undefined`). -/
structure Slug where
  current : Option String
deriving DecidableEq

/-- A Sanity reference object `\x7b_type: "reference", _ref: <id>\x7d`. -/
structure SanityRef where
  _type : String
  _ref : String
deriving DecidableEq

/-- A keyed Sanity reference as pushed in `vendureCollections`. -/
structure KeyedSanityRef where
  _key : String
  _type : String
  _ref : String
deriving DecidableEq

/-- The document fields built by the transforms.  Products and collections
set only the first four fields; variants additionally set the parent-product
reference and the collection references. -/
structure DocData where
  _type : String
  vendureId : Int
  title : String
  slug : Slug
  vendureProduct : Option SanityRef := none
  vendureCollections : List KeyedSanityRef := []
deriving DecidableEq

/-- A document stored in the remote CMS: its remote id plus its fields. -/
structure RemoteDoc where
  _id : String
  data : DocData
deriving DecidableEq

/-- One outbound HTTP request to Sanity, as issued by `makeSanityRequest`:
either a GET query (single-match or batch id-match) or a POST mutation. -/
inductive SanityRequest where
  | queryOne (ty : String) (vendureId : Int)
  | queryBatch (ty : String) (vendureIds : List Int)
  | mutateCreate (doc : DocData)
  | mutatePatch (docId : String) (setData : DocData)
  | mutateDelete (docId : String)
deriving DecidableEq

/-- Whether a request is a mutating call (POST `data/mutate/...`) as opposed
to a read-only query (GET `data/query/...`). -/
def SanityRequest.isMutation : SanityRequest → Bool
  | SanityRequest.queryOne _ _ => false
  | SanityRequest.queryBatch _ _ => false
  | _ => true

/-- The state of the remote CMS plus the transport: stored documents, the
fresh remote-id counter, whether GET queries respectively POST mutations
come back non-2xx, and the log of all requests issued so far. -/
structure RemoteState where
  docs : List RemoteDoc
  nextId : Nat
  queryFails : Bool
  mutateFails : Bool
  log : List SanityRequest
deriving DecidableEq

/-- Record one outbound request in the log. -/
def pushLog (st : RemoteState) (r : SanityRequest) : RemoteState :=
  { st with log := st.log ++ [r] }

/-- The first stored document of the given type with the given `vendureId`
(the `*[_type == t && vendureId == i][0]` query result). -/
def findLocal (docs : List RemoteDoc) (ty : String) (vid : Int) : Option RemoteDoc :=
  docs.find? (fun d => d.data._type == ty && d.data.vendureId == vid)

/-- GET `data/query/...` with a single-match query: logs the request, then
either fails (non-2xx) or returns the first matching document. -/
def sanityQueryOne (st : RemoteState) (ty : String) (vid : Int) :
    RemoteState × Except String (Option RemoteDoc) :=
  let st1 := pushLog st (SanityRequest.queryOne ty vid)
  if st1.queryFails then (st1, Except.error "Sanity API error")
  else (st1, Except.ok (findLocal st1.docs ty vid))

/-- GET `data/query/...` with an `||`-joined batch query: logs the request,
then either fails or returns all documents of the type whose `vendureId` is
among the given ids. -/
def sanityQueryBatch (st : RemoteState) (ty : String) (vids : List Int) :
    RemoteState × Except String (List RemoteDoc) :=
  let st1 := pushLog st (SanityRequest.queryBatch ty vids)
  if st1.queryFails then (st1, Except.error "Sanity API error")
  else (st1, Except.ok (st1.docs.filter
    (fun d => d.data._type == ty && vids.contains d.data.vendureId)))

/-- Remote document ids are drawn from the counter. -/
def freshDocId (n : Nat) : String := "doc-" ++ toString n

/-- POST a `create` mutation: logs, then either fails or appends a new
document under a fresh remote id, returning that id (`results[0].id`). -/
def sanityMutateCreate (st : RemoteState) (d : DocData) :
    RemoteState × Except String String :=
  let st1 := pushLog st (SanityRequest.mutateCreate d)
  if st1.mutateFails then (st1, Except.error "Sanity API error")
  else ({ st1 with
            docs := st1.docs ++ [{ _id := freshDocId st1.nextId, data := d }],
            nextId := st1.nextId + 1 },
        Except.ok (freshDocId st1.nextId))

/-- POST a `patch`/`set` mutation: logs, then either fails or replaces the
fields of the document with the given remote id. -/
def sanityMutatePatch (st : RemoteState) (docId : String) (d : DocData) :
    RemoteState × Except String Unit :=
  let st1 := pushLog st (SanityRequest.mutatePatch docId d)
  if st1.mutateFails then (st1, Except.error "Sanity API error")
  else ({ st1 with
            docs := st1.docs.map
              (fun doc => if doc._id == docId then { doc with data := d } else doc) },
        Except.ok ())

/-- POST a `delete` mutation: logs, then either fails or removes the
document with the given remote id. -/
def sanityMutateDelete (st : RemoteState) (docId : String) :
    RemoteState × Except String Unit :=
  let st1 := pushLog st (SanityRequest.mutateDelete docId)
  if st1.mutateFails then (st1, Except.error "Sanity API error")
  else ({ st1 with docs := st1.docs.filter (fun doc => !(doc._id == docId)) },
        Except.ok ())

/-- `findDocumentByVendureId`: issues the single-match query and catches any
error, returning `none` both on no match and on a failed query. -/
def findDocumentByVendureId (st : RemoteState) (vid : Int) (ty : String) :
    RemoteState × Option RemoteDoc :=
  match sanityQueryOne st ty vid with
  | (st1, Except.ok r) => (st1, r)
  | (st1, Except.error _) => (st1, none)

/-- `getCollectionDocumentIds`: batch-resolves catalog collections to remote
document ids in one query; empty input issues no request; a failed query is
caught and yields `[]`.  (Every stored document carries a remote id, so the
source's truthiness filter on `_id` keeps all results.) -/
def getCollectionDocumentIds (st : RemoteState) (collections : List Collection) :
    RemoteState × List String :=
  if collections.isEmpty then (st, [])
  else
    match sanityQueryBatch st DOCUMENT_TYPE.collection (collections.map (fun c => c.id)) with
    | (st1, Except.ok ds) => (st1, ds.map (fun d => d._id))
    | (st1, Except.error _) => (st1, [])

/-- `findParentProductDocumentId`: loads the parent product from the catalog
database (modelled by `db`), then looks up its remote document; any failure
yields `none`. -/
def findParentProductDocumentId (st : RemoteState) (db : Int → Option Product)
    (variant : ProductVariant) : RemoteState × Option String :=
  match db variant.productId with
  | none => (st, none)
  | some product =>
      match findDocumentByVendureId st product.id DOCUMENT_TYPE.product with
      | (st1, doc?) => (st1, doc?.map (fun d => d._id))

/-- `transformProductData`: skip (`none`) without a translation in the
default language, else the product document fields. -/
def transformProductData (product : Product) (lang : String)
    (productSlug : Option String) : Option DocData :=
  match getTranslationByLanguage product.translations lang with
  | none => none
  | some t =>
      some { _type := DOCUMENT_TYPE.product,
             vendureId := product.id,
             title := t.name,
             slug := { current := productSlug <|> getSlugByLanguage product.translations lang } }

/-- `transformVariantData`: skip (`none`) without a translation — before any
remote lookup — else resolve the parent-product and collection references and
build the variant document fields. -/
def transformVariantData (st : RemoteState) (db : Int → Option Product)
    (variant : ProductVariant) (lang : String) (variantSlug : String)
    (collections : List Collection) : RemoteState × Option DocData :=
  match getTranslationByLanguage variant.translations lang with
  | none => (st, none)
  | some t =>
      match findParentProductDocumentId st db variant with
      | (st1, parentId?) =>
          match getCollectionDocumentIds st1 collections with
          | (st2, collIds) =>
              (st2, some { _type := DOCUMENT_TYPE.product_variant,
                           vendureId := variant.id,
                           title := t.name,
                           slug := { current := some variantSlug },
                           vendureProduct := parentId?.map
                             (fun pid => { _type := "reference", _ref := pid }),
                           vendureCollections := collIds.map
                             (fun cid => { _key := "collection-" ++ cid,
                                           _type := "reference", _ref := cid }) })

/-- `transformCollectionData`: skip (`none`) without a translation, else the
collection document fields (no variant references — the relation is authored
only from the variant side). -/
def transformCollectionData (collection : Collection) (lang : String)
    (collectionSlug : Option String) : Option DocData :=
  match getTranslationByLanguage collection.translations lang with
  | none => none
  | some t =>
      some { _type := DOCUMENT_TYPE.collection,
             vendureId := collection.id,
             title := t.name,
             slug := { current := collectionSlug <|> getSlugByLanguage collection.translations lang } }

/-- `createDocumentFromProduct`: transform (skip on `none`, issuing no
request at all), then issue one `create` mutation. -/
def createDocumentFromProduct (st : RemoteState) (product : Product)
    (lang : String) (productSlug : Option String) :
    RemoteState × Except String Unit :=
  match transformProductData product lang productSlug with
  | none => (st, Except.ok ())
  | some data =>
      match sanityMutateCreate st data with
      | (st1, Except.ok _) => (st1, Except.ok ())
      | (st1, Except.error e) => (st1, Except.error e)

/-- `updateDocumentFromProduct`: look up the existing document by vendure id
and type; fall back to create when absent, else transform and patch. -/
def updateDocumentFromProduct (st : RemoteState) (product : Product)
    (lang : String) (productSlug : Option String) :
    RemoteState × Except String Unit :=
  match findDocumentByVendureId st product.id DOCUMENT_TYPE.product with
  | (st1, none) => createDocumentFromProduct st1 product lang productSlug
  | (st1, some existing) =>
      match transformProductData product lang productSlug with
      | none => (st1, Except.ok ())
      | some data =>
          match sanityMutatePatch st1 existing._id data with
          | (st2, r) => (st2, r)

/-- `deleteDocumentFromProduct`: look up the existing document; no-op when
absent, else issue one `delete` mutation. -/
def deleteDocumentFromProduct (st : RemoteState) (product : Product) :
    RemoteState × Except String Unit :=
  match findDocumentByVendureId st product.id DOCUMENT_TYPE.product with
  | (st1, none) => (st1, Except.ok ())
  | (st1, some existing) => sanityMutateDelete st1 existing._id

/-- `createDocumentFromVariant`. -/
def createDocumentFromVariant (st : RemoteState) (db : Int → Option Product)
    (variant : ProductVariant) (lang : String) (variantSlug : String)
    (collections : List Collection) : RemoteState × Except String Unit :=
  match transformVariantData st db variant lang variantSlug collections with
  | (st1, none) => (st1, Except.ok ())
  | (st1, some data) =>
      match sanityMutateCreate st1 data with
      | (st2, Except.ok _) => (st2, Except.ok ())
      | (st2, Except.error e) => (st2, Except.error e)

/-- `updateDocumentFromVariant`. -/
def updateDocumentFromVariant (st : RemoteState) (db : Int → Option Product)
    (variant : ProductVariant) (lang : String) (variantSlug : String)
    (collections : List Collection) : RemoteState × Except String Unit :=
  match findDocumentByVendureId st variant.id DOCUMENT_TYPE.product_variant with
  | (st1, none) => createDocumentFromVariant st1 db variant lang variantSlug collections
  | (st1, some existing) =>
      match transformVariantData st1 db variant lang variantSlug collections with
      | (st2, none) => (st2, Except.ok ())
      | (st2, some data) =>
          match sanityMutatePatch st2 existing._id data with
          | (st3, r) => (st3, r)

/-- `deleteDocumentFromVariant`. -/
def deleteDocumentFromVariant (st : RemoteState) (variant : ProductVariant) :
    RemoteState × Except String Unit :=
  match findDocumentByVendureId st variant.id DOCUMENT_TYPE.product_variant with
  | (st1, none) => (st1, Except.ok ())
  | (st1, some existing) => sanityMutateDelete st1 existing._id

/-- `createDocumentFromCollection`. -/
def createDocumentFromCollection (st : RemoteState) (collection : Collection)
    (lang : String) (collectionSlug : Option String) :
    RemoteState × Except String Unit :=
  match transformCollectionData collection lang collectionSlug with
  | none => (st, Except.ok ())
  | some data =>
      match sanityMutateCreate st data with
      | (st1, Except.ok _) => (st1, Except.ok ())
      | (st1, Except.error e) => (st1, Except.error e)

/-- `updateDocumentFromCollection`. -/
def updateDocumentFromCollection (st : RemoteState) (collection : Collection)
    (lang : String) (collectionSlug : Option String) :
    RemoteState × Except String Unit :=
  match findDocumentByVendureId st collection.id DOCUMENT_TYPE.collection with
  | (st1, none) => createDocumentFromCollection st1 collection lang collectionSlug
  | (st1, some existing) =>
      match transformCollectionData collection lang collectionSlug with
      | none => (st1, Except.ok ())
      | some data =>
          match sanityMutatePatch st1 existing._id data with
          | (st2, r) => (st2, r)

/-- `deleteDocumentFromCollection`. -/
def deleteDocumentFromCollection (st : RemoteState) (collection : Collection) :
    RemoteState × Except String Unit :=
  match findDocumentByVendureId st collection.id DOCUMENT_TYPE.collection with
  | (st1, none) => (st1, Except.ok ())
  | (st1, some existing) => sanityMutateDelete st1 existing._id

/-- `SanityService.syncProduct`: validate the translation (throws on
absence), then dispatch on the operation type; an unknown operation type is
logged and ignored. -/
def syncProduct (st : RemoteState) (product : Product) (lang : String)
    (operationType : String) (productSlug : Option String) :
    RemoteState × Except String Unit :=
  match validateTranslations product.translations lang with
  | Except.error e => (st, Except.error e)
  | Except.ok _ =>
      match operationType with
      | "create" => createDocumentFromProduct st product lang productSlug
      | "update" => updateDocumentFromProduct st product lang productSlug
      | "delete" => deleteDocumentFromProduct st product
      | _ => (st, Except.ok ())

/-- `SanityService.syncProductVariant`. -/
def syncProductVariant (st : RemoteState) (db : Int → Option Product)
    (variant : ProductVariant) (lang : String) (operationType : String)
    (variantSlug : String) (collections : List Collection) :
    RemoteState × Except String Unit :=
  match validateTranslations variant.translations lang with
  | Except.error e => (st, Except.error e)
  | Except.ok _ =>
      match operationType with
      | "create" => createDocumentFromVariant st db variant lang variantSlug collections
      | "update" => updateDocumentFromVariant st db variant lang variantSlug collections
      | "delete" => deleteDocumentFromVariant st variant
      | _ => (st, Except.ok ())

/-- `SanityService.syncCollection`. -/
def syncCollection (st : RemoteState) (collection : Collection) (lang : String)
    (operationType : String) (collectionSlug : Option String) :
    RemoteState × Except String Unit :=
  match validateTranslations collection.translations lang with
  | Except.error e => (st, Except.error e)
  | Except.ok _ =>
      match operationType with
      | "create" => createDocumentFromCollection st collection lang collectionSlug
      | "update" => updateDocumentFromCollection st collection lang collectionSlug
      | "delete" => deleteDocumentFromCollection st collection
      | _ => (st, Except.ok ())

/-- The job descriptor handed to the per-entity sync methods (the model
elides the wall-clock `timestamp` field). -/
structure SyncJobData where
  entityType : String
  entityId : Int
  operationType : String
  retryCount : Nat
deriving DecidableEq

/-- The result object of the per-entity sync wrappers (the model elides the
wall-clock `timestamp` field). -/
structure SyncResponse where
  success : Bool
  message : String
deriving DecidableEq

/-- Outcomes of the external collaborators consulted by
`CmsSyncService.syncProductToCms`: the catalog database load (which can
throw, or find nothing) and the default-channel language lookup. -/
structure ProductSyncEnv where
  loadProduct : Except String (Option Product)
  defaultLang : Except String String

/-- The try-block of `syncProductToCms`: load the product, resolve the
default language, compute the slug, and delegate to the publisher. -/
def syncProductToCmsBody (env : ProductSyncEnv) (st : RemoteState)
    (jobData : SyncJobData) : RemoteState × Except String SyncResponse :=
  match env.loadProduct with
  | Except.error e => (st, Except.error e)
  | Except.ok none => (st, Except.error ("Product " ++ toString jobData.entityId ++ " not found"))
  | Except.ok (some product) =>
      match env.defaultLang with
      | Except.error e => (st, Except.error e)
      | Except.ok lang =>
          match syncProduct st product lang jobData.operationType
              (getSlugByLanguage product.translations lang) with
          | (st1, Except.error e) => (st1, Except.error e)
          | (st1, Except.ok _) =>
              (st1, Except.ok { success := true,
                                message := "Product " ++ jobData.operationType ++ " synced" })

/-- `CmsSyncService.syncProductToCms`: the try-block with its catch, which
converts any error into a `success:false` result carrying the message. -/
def syncProductToCms (env : ProductSyncEnv) (st : RemoteState)
    (jobData : SyncJobData) : RemoteState × SyncResponse :=
  match syncProductToCmsBody env st jobData with
  | (st1, Except.ok r) => (st1, r)
  | (st1, Except.error msg) => (st1, { success := false, message := "Product sync failed: " ++ msg })

/-- Outcomes of the external collaborators consulted by `syncVariantToCms`:
the default-language lookup, the request-context construction, the variant
load, the result of the collection-membership scan
(`findCollectionsForVariant`'s try-block), and the catalog product table
used by the publisher's parent-reference resolution. -/
structure VariantSyncEnv where
  defaultLang : Except String String
  makeCtx : Except String Unit
  loadVariant : Except String (Option ProductVariant)
  collectionsLookup : Except String (List Collection)
  db : Int → Option Product

/-- `findCollectionsForVariant`: the membership scan (delegated to the
catalog platform) wrapped in a catch that returns `[]` on any error. -/
def findCollectionsForVariant (env : VariantSyncEnv) : List Collection :=
  match env.collectionsLookup with
  | Except.ok cols => cols
  | Except.error _ => []

/-- The variant slug computed by `syncVariantToCms`: derived from the parent
product's slug when that is present and non-empty (JS truthiness), else a
bare `variant-<id>` slug. -/
def variantSlugOf (productSlug : Option String) (variantId : Int) : String :=
  match productSlug with
  | some ps => if ps.isEmpty then "variant-" ++ toString variantId
               else ps ++ "-variant-" ++ toString variantId
  | none => "variant-" ++ toString variantId

/-- The try-block of `syncVariantToCms`. -/
def syncVariantToCmsBody (env : VariantSyncEnv) (st : RemoteState)
    (jobData : SyncJobData) : RemoteState × Except String SyncResponse :=
  match env.defaultLang with
  | Except.error e => (st, Except.error e)
  | Except.ok lang =>
  match env.makeCtx with
  | Except.error e => (st, Except.error e)
  | Except.ok _ =>
  match env.loadVariant with
  | Except.error e => (st, Except.error e)
  | Except.ok none => (st, Except.error ("Variant " ++ toString jobData.entityId ++ " not found"))
  | Except.ok (some variant) =>
      match syncProductVariant st env.db variant lang jobData.operationType
          (variantSlugOf (getSlugByLanguage variant.productTranslations lang) variant.id)
          (findCollectionsForVariant env) with
      | (st1, Except.error e) => (st1, Except.error e)
      | (st1, Except.ok _) =>
          (st1, Except.ok { success := true,
                            message := "Variant " ++ jobData.operationType ++ " synced" })

/-- `CmsSyncService.syncVariantToCms`: try-block plus catch. -/
def syncVariantToCms (env : VariantSyncEnv) (st : RemoteState)
    (jobData : SyncJobData) : RemoteState × SyncResponse :=
  match syncVariantToCmsBody env st jobData with
  | (st1, Except.ok r) => (st1, r)
  | (st1, Except.error msg) => (st1, { success := false, message := "Variant sync failed: " ++ msg })

/-- Outcomes of the external collaborators consulted by
`syncCollectionToCms`. -/
structure CollectionSyncEnv where
  defaultLang : Except String String
  makeCtx : Except String Unit
  loadCollection : Except String (Option Collection)

/-- The try-block of `syncCollectionToCms`. -/
def syncCollectionToCmsBody (env : CollectionSyncEnv) (st : RemoteState)
    (jobData : SyncJobData) : RemoteState × Except String SyncResponse :=
  match env.defaultLang with
  | Except.error e => (st, Except.error e)
  | Except.ok lang =>
  match env.makeCtx with
  | Except.error e => (st, Except.error e)
  | Except.ok _ =>
  match env.loadCollection with
  | Except.error e => (st, Except.error e)
  | Except.ok none => (st, Except.error ("Collection " ++ toString jobData.entityId ++ " not found"))
  | Except.ok (some collection) =>
      match syncCollection st collection lang jobData.operationType
          (getSlugByLanguage collection.translations lang) with
      | (st1, Except.error e) => (st1, Except.error e)
      | (st1, Except.ok _) =>
          (st1, Except.ok { success := true,
                            message := "Collection " ++ jobData.operationType ++ " synced" })

/-- `CmsSyncService.syncCollectionToCms`: try-block plus catch. -/
def syncCollectionToCms (env : CollectionSyncEnv) (st : RemoteState)
    (jobData : SyncJobData) : RemoteState × SyncResponse :=
  match syncCollectionToCmsBody env st jobData with
  | (st1, Except.ok r) => (st1, r)
  | (st1, Except.error msg) => (st1, { success := false, message := "Collection sync failed: " ++ msg })

/-- A work-queue job of the bulk sweep. -/
structure Job where
  entityId : Int
  attempts : Nat
  maxAttempts : Nat
  lastError : Option String
deriving DecidableEq

/-- A terminal-failure entry of the sweep's error list. -/
structure ErrEntry where
  entityId : Int
  error : String
  attempts : Nat
deriving DecidableEq

/-- The sweep's accumulated counters, error list, and — for analysis — the
trace of every dispatched job together with the job descriptor it was
dispatched with. -/
structure Acc where
  successCount : Nat
  errorCount : Nat
  errors : List ErrEntry
  processed : Nat
  trace : List (Job × SyncJobData)
deriving DecidableEq

/-- JS string interpolation of a possibly-undefined value. -/
def optErrString : Option String → String
  | some s => s
  | none => "undefined"

/-- The batch-mapped async closure of the sweep (lines 170–187): increment
the attempt counter, build the job descriptor, dispatch, and catch a failure
into the job's `lastError`.  The outcome of the dispatch is given by the
oracle `fails` at the job's entity id and post-increment attempt number. -/
def dispatchJob (fails : Int → Nat → Option String) (etype : String) (job : Job) :
    Job × SyncJobData × Option String :=
  let job1 : Job := { job with attempts := job.attempts + 1 }
  let jd : SyncJobData := { entityType := etype, entityId := job1.entityId,
                            operationType := "update", retryCount := job1.attempts - 1 }
  match fails job1.entityId job1.attempts with
  | none => (job1, jd, none)
  | some msg => ({ job1 with lastError := some msg }, jd, some msg)

/-- The settlement loop over a wave's results (lines 190–210): successes are
counted, failed jobs are requeued at the tail while below the attempt cap,
and exhausted jobs are recorded in the error list. -/
def settleResults (acc : Acc) (queue : List Job) :
    List (Job × SyncJobData × Option String) → Acc × List Job
  | [] => (acc, queue)
  | (_, _, none) :: rest =>
      settleResults { acc with successCount := acc.successCount + 1,
                               processed := acc.processed + 1 } queue rest
  | (job, _, some _) :: rest =>
      if job.attempts < job.maxAttempts then
        settleResults acc (queue ++ [job]) rest
      else
        settleResults
          { acc with
              errorCount := acc.errorCount + 1,
              processed := acc.processed + 1,
              errors := acc.errors ++
                [{ entityId := job.entityId,
                   error := "Failed after " ++ toString job.maxAttempts ++
                            " attempts. Last error: " ++ optErrString job.lastError,
                   attempts := job.attempts }] }
          queue rest

/-- One wave of the sweep: splice up to 10 jobs off the head of the queue,
dispatch them all, record the dispatches in the trace, and settle the
results. -/
def processWave (fails : Int → Nat → Option String) (etype : String)
    (acc : Acc) (queue : List Job) : Acc × List Job :=
  let results := (queue.take 10).map (dispatchJob fails etype)
  settleResults { acc with trace := acc.trace ++ results.map (fun r => (r.1, r.2.1)) }
    (queue.drop 10) results

/-- Whether the oracle lets the job's next attempt succeed. -/
def succeedsNow (fails : Int → Nat → Option String) (j : Job) : Bool :=
  (fails j.entityId (j.attempts + 1)).isNone

/-- Whether the job's next attempt fails while leaving the attempt counter
below the cap, so that the job is requeued. -/
def requeueNow (fails : Int → Nat → Option String) (j : Job) : Bool :=
  (fails j.entityId (j.attempts + 1)).isSome && decide (j.attempts + 1 < j.maxAttempts)

/-- Whether the job's next attempt fails with the counter at the cap, so
that the job is recorded as a terminal failure. -/
def terminalNow (fails : Int → Nat → Option String) (j : Job) : Bool :=
  (fails j.entityId (j.attempts + 1)).isSome && !decide (j.attempts + 1 < j.maxAttempts)

/-- The job as it re-enters the queue after a failed attempt: counter
incremented, last error recorded. -/
def failBump (fails : Int → Nat → Option String) (j : Job) : Job :=
  { j with attempts := j.attempts + 1, lastError := fails j.entityId (j.attempts + 1) }

/-- The error-list entry produced when a job's next attempt is terminal. -/
def waveEntry (fails : Int → Nat → Option String) (j : Job) : ErrEntry :=
  { entityId := j.entityId,
    error := "Failed after " ++ toString j.maxAttempts ++
             " attempts. Last error: " ++ optErrString (fails j.entityId (j.attempts + 1)),
    attempts := j.attempts + 1 }

/-- Closed form of settling a wave of dispatched jobs: successes and
terminal failures are counted, terminal entries appended, and exactly the
below-cap failures are pushed onto the tail of the queue. -/
theorem settle_dispatch_spec (fails : Int → Nat → Option String) (etype : String) :
    ∀ (batch : List Job) (acc : Acc) (q : List Job),
      settleResults acc q (batch.map (dispatchJob fails etype)) =
        ({ successCount := acc.successCount + (batch.filter (succeedsNow fails)).length,
           errorCount := acc.errorCount + (batch.filter (terminalNow fails)).length,
           errors := acc.errors ++ (batch.filter (terminalNow fails)).map (waveEntry fails),
           processed := acc.processed + (batch.filter (succeedsNow fails)).length
                        + (batch.filter (terminalNow fails)).length,
           trace := acc.trace },
         q ++ (batch.filter (requeueNow fails)).map (failBump fails)) := by
  intro batch
  induction batch with
  | nil => intro acc q; simp [settleResults]
  | cons j bs ih =>
      intro acc q
      rcases hres : fails j.entityId (j.attempts + 1) with _ | msg
      · have hsucc : succeedsNow fails j = true := by simp [succeedsNow, hres]
        have hreq : requeueNow fails j = false := by simp [requeueNow, hres]
        have hterm : terminalNow fails j = false := by simp [terminalNow, hres]
        simp only [List.map_cons, dispatchJob, hres, settleResults, ih,
          List.filter_cons, hsucc, hreq, hterm, Bool.false_eq_true, if_true, if_false,
          List.length_cons, Prod.mk.injEq, Acc.mk.injEq]
        and_intros <;> first | trivial | omega
      · by_cases hlt : j.attempts + 1 < j.maxAttempts
        · have hsucc : succeedsNow fails j = false := by simp [succeedsNow, hres]
          have hreq : requeueNow fails j = true := by simp [requeueNow, hres, hlt]
          have hterm : terminalNow fails j = false := by simp [terminalNow, hres, hlt]
          simp only [List.map_cons, dispatchJob, hres, settleResults, hlt, if_true, ih,
            List.filter_cons, hsucc, hreq, hterm, Bool.false_eq_true, if_false,
            List.map_cons, List.length_cons, Prod.mk.injEq, Acc.mk.injEq]
          and_intros <;>
            first
              | trivial
              | omega
              | (rw [List.append_assoc]; simp [failBump, hres])
        · have hsucc : succeedsNow fails j = false := by simp [succeedsNow, hres]
          have hreq : requeueNow fails j = false := by simp [requeueNow, hres, hlt]
          have hterm : terminalNow fails j = true := by simp [terminalNow, hres, hlt]
          simp only [List.map_cons, dispatchJob, hres, settleResults, hlt, if_false, ih,
            List.filter_cons, hsucc, hreq, hterm, Bool.false_eq_true, if_true,
            List.map_cons, List.length_cons, Prod.mk.injEq, Acc.mk.injEq]
          and_intros <;>
            first
              | trivial
              | omega
              | (rw [List.append_assoc]; simp [waveEntry, hres])

/-- Weight of one job in the sweep's termination measure. -/
def jobMeasure (j : Job) : Nat := j.maxAttempts - j.attempts + 1

/-- Termination measure of the sweep loop. -/
def sweepMeasure (q : List Job) : Nat := (q.map jobMeasure).sum

theorem sweepMeasure_append (a b : List Job) :
    sweepMeasure (a ++ b) = sweepMeasure a + sweepMeasure b := by
  simp [sweepMeasure]

theorem failBump_measure_le (fails : Int → Nat → Option String) (j : Job) :
    jobMeasure (failBump fails j) ≤ jobMeasure j := by
  simp only [jobMeasure, failBump]
  omega

theorem requeued_measure_le (fails : Int → Nat → Option String) (batch : List Job) :
    sweepMeasure ((batch.filter (requeueNow fails)).map (failBump fails)) ≤
      sweepMeasure batch := by
  induction batch with
  | nil => simp [sweepMeasure]
  | cons j bs ih =>
      cases h : requeueNow fails j with
      | true =>
          have hb := failBump_measure_le fails j
          simp only [List.filter_cons, h, if_true, List.map_cons,
            sweepMeasure, List.sum_cons] at *
          omega
      | false =>
          simp only [List.filter_cons, h, Bool.false_eq_true, if_false,
            sweepMeasure, List.map_cons, List.sum_cons] at *
          omega

theorem requeued_measure_lt (fails : Int → Nat → Option String) (batch : List Job)
    (hne : batch ≠ []) :
    sweepMeasure ((batch.filter (requeueNow fails)).map (failBump fails)) <
      sweepMeasure batch := by
  cases batch with
  | nil => exact absurd rfl hne
  | cons j bs =>
      have htail := requeued_measure_le fails bs
      cases h : requeueNow fails j with
      | true =>
          have hlt : j.attempts + 1 < j.maxAttempts := by
            have h2 := h
            simp only [requeueNow, Bool.and_eq_true, decide_eq_true_eq] at h2
            exact h2.2
          have hhead : jobMeasure (failBump fails j) < jobMeasure j := by
            simp only [jobMeasure, failBump]
            omega
          simp only [List.filter_cons, h, if_true, List.map_cons,
            sweepMeasure, List.sum_cons] at *
          omega
      | false =>
          have hhead : 1 ≤ jobMeasure j := by
            simp only [jobMeasure]
            omega
          simp only [List.filter_cons, h, Bool.false_eq_true, if_false,
            sweepMeasure, List.map_cons, List.sum_cons] at *
          omega

/-- The queue after a wave: the unspliced remainder, with exactly the failed
below-cap jobs of the batch appended at the tail. -/
theorem processWave_queue (fails : Int → Nat → Option String) (etype : String)
    (acc : Acc) (queue : List Job) :
    (processWave fails etype acc queue).2 =
      queue.drop 10 ++ ((queue.take 10).filter (requeueNow fails)).map (failBump fails) := by
  simp only [processWave, settle_dispatch_spec]

theorem processWave_measure (fails : Int → Nat → Option String) (etype : String)
    (acc : Acc) (queue : List Job) (hne : ¬ queue = []) :
    sweepMeasure (processWave fails etype acc queue).2 < sweepMeasure queue := by
  rw [processWave_queue, sweepMeasure_append]
  have htake : queue.take 10 ≠ [] := by
    cases queue with
    | nil => exact absurd rfl hne
    | cons j bs => simp [List.take]
  have hlt := requeued_measure_lt fails (queue.take 10) htake
  have hsplit : sweepMeasure queue = sweepMeasure (queue.take 10) + sweepMeasure (queue.drop 10) := by
    conv_lhs => rw [show queue = queue.take 10 ++ queue.drop 10 from (List.take_append_drop 10 queue).symm]
    exact sweepMeasure_append _ _
  omega

/-- The sweep's wave loop (lines 166–215): process waves until the queue is
empty. -/
def sweepLoop (fails : Int → Nat → Option String) (etype : String)
    (acc : Acc) (queue : List Job) : Acc :=
  if h : queue = [] then acc
  else
    sweepLoop fails etype
      (processWave fails etype acc queue).1 (processWave fails etype acc queue).2
termination_by sweepMeasure queue
decreasing_by exact processWave_measure fails etype acc queue h

/-- The sweep's returned summary. -/
structure SweepSummary where
  success : Bool
  totalEntities : Nat
  successCount : Nat
  errorCount : Nat
  errors : List ErrEntry
deriving DecidableEq

/-- A freshly enqueued job: zero attempts out of a maximum of 5. -/
def initialJob (e : Int) : Job :=
  { entityId := e, attempts := 0, maxAttempts := 5, lastError := none }

/-- The sweep's zero-valued initial accumulator. -/
def initialAcc : Acc :=
  { successCount := 0, errorCount := 0, errors := [], processed := 0, trace := [] }

/-- `syncAllEntitiesToCmsGeneric`, for a successfully loaded entity list:
zero entities short-circuit to an all-zero success summary; otherwise every
entity is enqueued with 0 attempts out of a maximum of 5 and the wave loop
runs to completion. -/
def syncAllEntitiesToCmsGeneric (fails : Int → Nat → Option String)
    (etype : String) (ids : List Int) : SweepSummary :=
  if ids.length = 0 then
    { success := true, totalEntities := 0, successCount := 0, errorCount := 0, errors := [] }
  else
    let acc := sweepLoop fails etype initialAcc (ids.map initialJob)
    { success := acc.errorCount == 0, totalEntities := ids.length,
      successCount := acc.successCount, errorCount := acc.errorCount, errors := acc.errors }

/-- The dispatch trace of a bulk sweep over the given entity list: every
dispatched job (post-increment) paired with the job descriptor it was
dispatched with. -/
def sweepTrace (fails : Int → Nat → Option String) (etype : String)
    (ids : List Int) : List (Job × SyncJobData) :=
  (sweepLoop fails etype initialAcc (ids.map initialJob)).trace

/-- `syncAllEntitiesToCmsGeneric` including its setup phase: when the
initial bulk load throws, the catch returns a `success:false` summary with a
single synthetic error entry (entity id −1, attempts 1). -/
def syncAllEntitiesToCmsGenericE (fails : Int → Nat → Option String)
    (etype : String) (load : Except String (List Int)) : SweepSummary :=
  match load with
  | Except.ok ids => syncAllEntitiesToCmsGeneric fails etype ids
  | Except.error msg =>
      { success := false, totalEntities := 0, successCount := 0,
        errorCount := 1, errors := [{ entityId := -1, error := msg, attempts := 1 }] }

/-- Whether the oracle makes the k-th dispatch for entity `e` throw. -/
def attemptFails (fails : Int → Nat → Option String) (e : Int) (k : Nat) : Bool :=
  (fails e k).isSome

/-- Whether a job for entity `e` that has already made `a` attempts will
fail on every one of its remaining attempts up to the cap of 5. -/
def willFailFrom (fails : Int → Nat → Option String) (e : Int) (a : Nat) : Bool :=
  if a < 5 then attemptFails fails e (a + 1) && willFailFrom fails e (a + 1) else true
termination_by 5 - a

/-- Entity `e` fails on all 5 of its attempts (equivalently: it succeeds on
no attempt `k ≤ 5`). -/
def alwaysFails (fails : Int → Nat → Option String) (e : Int) : Bool :=
  willFailFrom fails e 0

/-- The eventual fate of a queued job. -/
def jobWillFail (fails : Int → Nat → Option String) (j : Job) : Bool :=
  willFailFrom fails j.entityId j.attempts

/-- The error-list entry eventually recorded for an entity that exhausts its
5 attempts: its id, the formatted message around the 5th attempt's error,
and the final attempt counter. -/
def terminalEntry (fails : Int → Nat → Option String) (e : Int) : ErrEntry :=
  { entityId := e,
    error := "Failed after " ++ toString (5 : Nat) ++ " attempts. Last error: " ++
             optErrString (fails e 5),
    attempts := 5 }

theorem willFailFrom_step (fails : Int → Nat → Option String) (e : Int) (a : Nat)
    (h : a < 5) :
    willFailFrom fails e a = (attemptFails fails e (a + 1) && willFailFrom fails e (a + 1)) := by
  rw [willFailFrom]
  simp [h]

theorem jobWillFail_of_succeedsNow (fails : Int → Nat → Option String) (j : Job)
    (ha : j.attempts < 5) (hs : succeedsNow fails j = true) :
    jobWillFail fails j = false := by
  unfold jobWillFail
  rw [willFailFrom_step fails j.entityId j.attempts ha]
  simp only [succeedsNow, Option.isNone_iff_eq_none] at hs
  simp [attemptFails, hs]

theorem jobWillFail_of_terminalNow (fails : Int → Nat → Option String) (j : Job)
    (hmax : j.maxAttempts = 5) (ha : j.attempts < 5) (ht : terminalNow fails j = true) :
    jobWillFail fails j = true ∧ waveEntry fails j = terminalEntry fails j.entityId := by
  have h4 : j.attempts = 4 := by
    simp only [terminalNow, Bool.and_eq_true, Bool.not_eq_true', decide_eq_false_iff_not,
      hmax] at ht
    omega
  have hsome : (fails j.entityId (j.attempts + 1)).isSome = true := by
    simp only [terminalNow, Bool.and_eq_true] at ht
    exact ht.1
  constructor
  · unfold jobWillFail
    rw [willFailFrom_step fails j.entityId j.attempts ha]
    have h5 : willFailFrom fails j.entityId (4 + 1) = true := by
      rw [willFailFrom]
      simp
    rw [h4] at hsome ⊢
    simp [attemptFails, hsome, h5]
  · unfold waveEntry terminalEntry
    rw [h4, hmax]

theorem jobWillFail_failBump (fails : Int → Nat → Option String) (j : Job)
    (ha : j.attempts < 5) (hr : requeueNow fails j = true) :
    jobWillFail fails j = jobWillFail fails (failBump fails j) := by
  have hsome : (fails j.entityId (j.attempts + 1)).isSome = true := by
    simp only [requeueNow, Bool.and_eq_true] at hr
    exact hr.1
  unfold jobWillFail failBump
  rw [willFailFrom_step fails j.entityId j.attempts ha]
  simp [attemptFails, hsome]

/-- How a batch's fates split across the three possible outcomes of its next
attempt: jobs succeeding now, jobs terminating now, and requeued jobs whose
fate carries over. -/
theorem batch_fate_counts (fails : Int → Nat → Option String) :
    ∀ (batch : List Job),
    (∀ j ∈ batch, j.maxAttempts = 5 ∧ j.attempts < 5) →
    ((batch.filter (fun j => !jobWillFail fails j)).length
        = (batch.filter (succeedsNow fails)).length
          + (((batch.filter (requeueNow fails)).map (failBump fails)).filter
              (fun j => !jobWillFail fails j)).length)
    ∧ ((batch.filter (fun j => jobWillFail fails j)).length
        = (batch.filter (terminalNow fails)).length
          + (((batch.filter (requeueNow fails)).map (failBump fails)).filter
              (fun j => jobWillFail fails j)).length)
    ∧ (((batch.filter (fun j => jobWillFail fails j)).map
          (fun j => terminalEntry fails j.entityId) : Multiset ErrEntry)
        = (((batch.filter (terminalNow fails)).map (waveEntry fails) : List ErrEntry) : Multiset ErrEntry)
          + ((((batch.filter (requeueNow fails)).map (failBump fails)).filter
              (fun j => jobWillFail fails j)).map
                (fun j => terminalEntry fails j.entityId) : List ErrEntry)) := by
  intro batch
  induction batch with
  | nil => intro _; simp
  | cons j bs ih =>
      intro hinv
      obtain ⟨hmax, ha⟩ := hinv j (List.mem_cons_self j bs)
      obtain ⟨ih1, ih2, ih3⟩ := ih (fun x hx => hinv x (List.mem_cons_of_mem j hx))
      rcases hres : fails j.entityId (j.attempts + 1) with _ | msg
      · have hsucc : succeedsNow fails j = true := by simp [succeedsNow, hres]
        have hreq : requeueNow fails j = false := by simp [requeueNow, hres]
        have hterm : terminalNow fails j = false := by simp [terminalNow, hres]
        have hwf : jobWillFail fails j = false := jobWillFail_of_succeedsNow fails j ha hsucc
        simp only [List.filter_cons, hsucc, hreq, hterm, hwf, Bool.not_false,
          Bool.false_eq_true, if_true, if_false, List.length_cons]
        exact ⟨by omega, ih2, ih3⟩
      · by_cases hlt : j.attempts + 1 < j.maxAttempts
        · have hsucc : succeedsNow fails j = false := by simp [succeedsNow, hres]
          have hreq : requeueNow fails j = true := by simp [requeueNow, hres, hlt]
          have hterm : terminalNow fails j = false := by simp [terminalNow, hres, hlt]
          have hcarry : jobWillFail fails j = jobWillFail fails (failBump fails j) :=
            jobWillFail_failBump fails j ha hreq
          cases hwf : jobWillFail fails (failBump fails j) with
          | true =>
              have hwj : jobWillFail fails j = true := by rw [hcarry, hwf]
              simp only [List.filter_cons, hsucc, hreq, hterm, hwj, hwf, List.map_cons,
                Bool.not_true, Bool.false_eq_true, if_true, if_false, List.length_cons]
              refine ⟨ih1, by omega, ?_⟩
              simp only [List.map_cons, ← Multiset.cons_coe, Multiset.add_cons]
              rw [ih3]
              simp [failBump]
          | false =>
              have hwj : jobWillFail fails j = false := by rw [hcarry, hwf]
              simp only [List.filter_cons, hsucc, hreq, hterm, hwj, hwf, List.map_cons,
                Bool.not_false, Bool.false_eq_true, if_true, if_false, List.length_cons]
              exact ⟨by omega, ih2, ih3⟩
        · have hsucc : succeedsNow fails j = false := by simp [succeedsNow, hres]
          have hreq : requeueNow fails j = false := by simp [requeueNow, hres, hlt]
          have hterm : terminalNow fails j = true := by simp [terminalNow, hres, hlt]
          obtain ⟨hwj, hentry⟩ := jobWillFail_of_terminalNow fails j hmax ha hterm
          simp only [List.filter_cons, hsucc, hreq, hterm, hwj, Bool.not_true,
            Bool.false_eq_true, if_true, if_false, List.length_cons]
          refine ⟨ih1, by omega, ?_⟩
          simp only [List.map_cons, ← Multiset.cons_coe, Multiset.cons_add]
          rw [ih3, hentry]

/-- A wave preserves the sweep's queue invariant: queued jobs carry the cap
of 5 and an attempt counter strictly below it. -/
theorem processWave_inv (fails : Int → Nat → Option String) (etype : String)
    (acc : Acc) (queue : List Job)
    (hinv : ∀ j ∈ queue, j.maxAttempts = 5 ∧ j.attempts < 5) :
    ∀ j ∈ (processWave fails etype acc queue).2, j.maxAttempts = 5 ∧ j.attempts < 5 := by
  rw [processWave_queue]
  intro j hj
  rcases List.mem_append.mp hj with h | h
  · exact hinv j (List.drop_subset 10 queue h)
  · rcases List.mem_map.mp h with ⟨j0, hj0, rfl⟩
    have hreq : requeueNow fails j0 = true := List.of_mem_filter hj0
    have hq : j0 ∈ queue :=
      List.take_subset 10 queue (List.mem_of_mem_filter hj0)
    obtain ⟨hm, _⟩ := hinv j0 hq
    simp only [requeueNow, Bool.and_eq_true, decide_eq_true_eq, hm] at hreq
    refine ⟨hm, ?_⟩
    show j0.attempts + 1 < 5
    exact hreq.2

/-- The accumulator after a wave. -/
theorem processWave_acc (fails : Int → Nat → Option String) (etype : String)
    (acc : Acc) (queue : List Job) :
    (processWave fails etype acc queue).1 =
      { successCount := acc.successCount + ((queue.take 10).filter (succeedsNow fails)).length,
        errorCount := acc.errorCount + ((queue.take 10).filter (terminalNow fails)).length,
        errors := acc.errors ++ ((queue.take 10).filter (terminalNow fails)).map (waveEntry fails),
        processed := acc.processed + ((queue.take 10).filter (succeedsNow fails)).length
                     + ((queue.take 10).filter (terminalNow fails)).length,
        trace := acc.trace ++ ((queue.take 10).map (dispatchJob fails etype)).map
                   (fun r => (r.1, r.2.1)) } := by
  simp only [processWave, settle_dispatch_spec]

/-- Full characterization of the wave loop: the final counters and error
list are determined, job by job, by whether the oracle lets the job succeed
on some remaining attempt. -/
theorem sweepLoop_spec (fails : Int → Nat → Option String) (etype : String) :
    ∀ (n : Nat) (queue : List Job) (acc : Acc),
    sweepMeasure queue ≤ n →
    (∀ j ∈ queue, j.maxAttempts = 5 ∧ j.attempts < 5) →
    ((sweepLoop fails etype acc queue).successCount
        = acc.successCount + (queue.filter (fun j => !jobWillFail fails j)).length)
    ∧ ((sweepLoop fails etype acc queue).errorCount
        = acc.errorCount + (queue.filter (fun j => jobWillFail fails j)).length)
    ∧ (((sweepLoop fails etype acc queue).errors : Multiset ErrEntry)
        = ((acc.errors : List ErrEntry) : Multiset ErrEntry)
          + ((queue.filter (fun j => jobWillFail fails j)).map
              (fun j => terminalEntry fails j.entityId) : List ErrEntry)) := by
  intro n
  induction n with
  | zero =>
      intro queue acc hm _
      have hq : queue = [] := by
        cases queue with
        | nil => rfl
        | cons j bs =>
            exfalso
            simp only [sweepMeasure, List.map_cons, List.sum_cons, jobMeasure,
              Nat.le_zero] at hm
            omega
      subst hq
      rw [sweepLoop]
      simp
  | succ n ih =>
      intro queue acc hm hinv
      by_cases hq : queue = []
      · subst hq
        rw [sweepLoop]
        simp
      · rw [sweepLoop, dif_neg hq]
        have hmeas := processWave_measure fails etype acc queue hq
        have hinv2 := processWave_inv fails etype acc queue hinv
        have hinvT : ∀ j ∈ queue.take 10, j.maxAttempts = 5 ∧ j.attempts < 5 :=
          fun j hj => hinv j (List.take_subset 10 queue hj)
        obtain ⟨ih1, ih2, ih3⟩ := ih (processWave fails etype acc queue).2
          (processWave fails etype acc queue).1 (by omega) hinv2
        obtain ⟨bc1, bc2, bc3⟩ := batch_fate_counts fails (queue.take 10) hinvT
        have hsplit : ∀ p : Job → Bool,
            queue.filter p = (queue.take 10).filter p ++ (queue.drop 10).filter p := by
          intro p
          rw [← List.filter_append, List.take_append_drop]
        refine ⟨?_, ?_, ?_⟩
        · rw [ih1, processWave_acc, processWave_queue, hsplit]
          simp only [List.filter_append, List.length_append]
          omega
        · rw [ih2, processWave_acc, processWave_queue, hsplit]
          simp only [List.filter_append, List.length_append]
          omega
        · rw [ih3, processWave_acc, processWave_queue, hsplit]
          simp only [List.filter_append, List.map_append]
          push_cast [← Multiset.coe_add]
          rw [bc3]
          abel

theorem sweepMeasure_zero_eq_nil (queue : List Job) (hm : sweepMeasure queue ≤ 0) :
    queue = [] := by
  cases queue with
  | nil => rfl
  | cons j bs =>
      exfalso
      simp only [sweepMeasure, List.map_cons, List.sum_cons, jobMeasure, Nat.le_zero] at hm
      omega

/-- Every entry of the sweep's dispatch trace was dispatched with operation
type "update" and a retry count one below the dispatched job's attempt
counter. -/
theorem sweepLoop_trace (fails : Int → Nat → Option String) (etype : String) :
    ∀ (n : Nat) (queue : List Job) (acc : Acc),
    sweepMeasure queue ≤ n →
    (∀ p ∈ acc.trace, p.2.operationType = "update" ∧ p.2.retryCount = p.1.attempts - 1 ∧
        p.2.entityId = p.1.entityId ∧ p.2.entityType = etype) →
    ∀ p ∈ (sweepLoop fails etype acc queue).trace,
      p.2.operationType = "update" ∧ p.2.retryCount = p.1.attempts - 1 ∧
      p.2.entityId = p.1.entityId ∧ p.2.entityType = etype := by
  intro n
  induction n with
  | zero =>
      intro queue acc hm hacc
      have hq := sweepMeasure_zero_eq_nil queue hm
      subst hq
      rw [sweepLoop]
      simpa using hacc
  | succ n ih =>
      intro queue acc hm hacc
      by_cases hq : queue = []
      · subst hq
        rw [sweepLoop]
        simpa using hacc
      · rw [sweepLoop, dif_neg hq]
        refine ih _ _ ?_ ?_
        · have := processWave_measure fails etype acc queue hq
          omega
        · rw [processWave_acc]
          intro p hp
          rcases List.mem_append.mp hp with h | h
          · exact hacc p h
          · rcases List.mem_map.mp h with ⟨r, hr, rfl⟩
            rcases List.mem_map.mp hr with ⟨j, _, rfl⟩
            rcases hres : fails j.entityId (j.attempts + 1) with _ | msg <;>
              simp [dispatchJob, hres]

theorem filter_length_split {α : Type} (p : α → Bool) (l : List α) :
    (l.filter p).length + (l.filter (fun a => !p a)).length = l.length := by
  induction l with
  | nil => simp
  | cons a l ih =>
      cases h : p a <;> simp only [List.filter_cons, h, Bool.not_true, Bool.not_false,
        Bool.false_eq_true, if_true, if_false, List.length_cons] <;> omega

/-- The "remaining attempts budget" of the sweep's queue: the sum over all
queued jobs of `maxAttempts - attempts`. -/
def attemptsBudget (q : List Job) : Nat :=
  (q.map (fun j => j.maxAttempts - j.attempts)).sum

theorem attemptsBudget_append (a b : List Job) :
    attemptsBudget (a ++ b) = attemptsBudget a + attemptsBudget b := by
  simp [attemptsBudget]

theorem requeued_budget_le (fails : Int → Nat → Option String) (batch : List Job) :
    attemptsBudget ((batch.filter (requeueNow fails)).map (failBump fails)) ≤
      attemptsBudget batch := by
  induction batch with
  | nil => simp [attemptsBudget]
  | cons j bs ih =>
      cases h : requeueNow fails j with
      | true =>
          have hb : j.maxAttempts - (failBump fails j).attempts ≤ j.maxAttempts - j.attempts := by
            simp only [failBump]
            omega
          simp only [List.filter_cons, h, if_true, List.map_cons,
            attemptsBudget, List.sum_cons, failBump] at *
          omega
      | false =>
          simp only [List.filter_cons, h, Bool.false_eq_true, if_false,
            attemptsBudget, List.map_cons, List.sum_cons] at *
          omega

theorem requeued_budget_lt (fails : Int → Nat → Option String) (batch : List Job)
    (hne : batch ≠ []) (hinv : ∀ j ∈ batch, j.maxAttempts = 5 ∧ j.attempts < 5) :
    attemptsBudget ((batch.filter (requeueNow fails)).map (failBump fails)) <
      attemptsBudget batch := by
  cases batch with
  | nil => exact absurd rfl hne
  | cons j bs =>
      have htail := requeued_budget_le fails bs
      obtain ⟨hmax, ha⟩ := hinv j (List.mem_cons_self j bs)
      cases h : requeueNow fails j with
      | true =>
          have hhead : j.maxAttempts - (failBump fails j).attempts < j.maxAttempts - j.attempts := by
            simp only [failBump]
            omega
          simp only [List.filter_cons, h, if_true, List.map_cons,
            attemptsBudget, List.sum_cons, failBump] at *
          omega
      | false =>
          have hhead : 1 ≤ j.maxAttempts - j.attempts := by omega
          simp only [List.filter_cons, h, Bool.false_eq_true, if_false,
            attemptsBudget, List.map_cons, List.sum_cons] at *
          omega

/-- Claim C1: for every bulk sweep over a non-empty entity list, the summary
has `success` iff `errorCount = 0`; the error list consists (as a multiset)
of exactly one terminal entry per entity that fails on all 5 of its
attempts, each with `attempts = 5` and message
"Failed after 5 attempts. Last error: <msg>"; and every entity that
succeeds on some attempt `k ≤ 5` is counted once in `successCount` and
contributes no entry to the error list. -/
theorem claim_C1 (fails : Int → Nat → Option String) (etype : String) (ids : List Int)
    (hne : ids ≠ []) :
    ((syncAllEntitiesToCmsGeneric fails etype ids).success = true
        ↔ (syncAllEntitiesToCmsGeneric fails etype ids).errorCount = 0)
    ∧ (syncAllEntitiesToCmsGeneric fails etype ids).successCount
        = (ids.filter (fun e => !alwaysFails fails e)).length
    ∧ (syncAllEntitiesToCmsGeneric fails etype ids).errorCount
        = (ids.filter (alwaysFails fails)).length
    ∧ (((syncAllEntitiesToCmsGeneric fails etype ids).errors : List ErrEntry) : Multiset ErrEntry)
        = (((ids.filter (alwaysFails fails)).map (terminalEntry fails) : List ErrEntry) : Multiset ErrEntry)
    ∧ (∀ ent ∈ (syncAllEntitiesToCmsGeneric fails etype ids).errors,
        ent.attempts = 5 ∧ ∃ m, ent.error = "Failed after 5 attempts. Last error: " ++ m)
    ∧ (∀ e ∈ ids, alwaysFails fails e = false →
        ∀ ent ∈ (syncAllEntitiesToCmsGeneric fails etype ids).errors, ent.entityId ≠ e) := by
  have hlen : ¬ ids.length = 0 := fun h => hne (List.length_eq_zero.mp h)
  have hinv : ∀ j ∈ ids.map initialJob, j.maxAttempts = 5 ∧ j.attempts < 5 := by
    intro j hj
    rcases List.mem_map.mp hj with ⟨e, _, rfl⟩
    exact ⟨rfl, by simp [initialJob]⟩
  obtain ⟨h1, h2, h3⟩ := sweepLoop_spec fails etype (sweepMeasure (ids.map initialJob))
    (ids.map initialJob) initialAcc le_rfl hinv
  have hfailed : (ids.map initialJob).filter (fun j => jobWillFail fails j)
      = (ids.filter (alwaysFails fails)).map initialJob := List.filter_map initialJob ids
  have hok : (ids.map initialJob).filter (fun j => !jobWillFail fails j)
      = (ids.filter (fun e => !alwaysFails fails e)).map initialJob :=
    List.filter_map initialJob ids
  have hmapE : ((ids.filter (alwaysFails fails)).map initialJob).map
        (fun j => terminalEntry fails j.entityId)
      = (ids.filter (alwaysFails fails)).map (terminalEntry fails) := by
    rw [List.map_map]
    rfl
  have hEq : (((syncAllEntitiesToCmsGeneric fails etype ids).errors : List ErrEntry) : Multiset ErrEntry)
      = (((ids.filter (alwaysFails fails)).map (terminalEntry fails) : List ErrEntry) : Multiset ErrEntry) := by
    simp only [syncAllEntitiesToCmsGeneric, hlen, if_false]
    rw [h3, hfailed, hmapE]
    simp [initialAcc]
  refine ⟨?_, ?_, ?_, hEq, ?_, ?_⟩
  · simp only [syncAllEntitiesToCmsGeneric, hlen, if_false]
    exact beq_iff_eq
  · simp only [syncAllEntitiesToCmsGeneric, hlen, if_false]
    rw [h1, hok]
    simp [initialAcc]
  · simp only [syncAllEntitiesToCmsGeneric, hlen, if_false]
    rw [h2, hfailed]
    simp [initialAcc]
  · intro ent hent
    have hmem : ent ∈ (ids.filter (alwaysFails fails)).map (terminalEntry fails) := by
      rw [← Multiset.mem_coe, ← hEq, Multiset.mem_coe]
      exact hent
    rcases List.mem_map.mp hmem with ⟨e, _, rfl⟩
    exact ⟨rfl, optErrString (fails e 5), rfl⟩
  · intro e _ hF ent hent
    have hmem : ent ∈ (ids.filter (alwaysFails fails)).map (terminalEntry fails) := by
      rw [← Multiset.mem_coe, ← hEq, Multiset.mem_coe]
      exact hent
    rcases List.mem_map.mp hmem with ⟨e2, he2, rfl⟩
    have hAF : alwaysFails fails e2 = true := List.of_mem_filter he2
    intro habs
    have : e2 = e := habs
    rw [this, hF] at hAF
    exact Bool.false_ne_true hAF

/-- The oracle used by the concrete witnesses: entity 1 fails every attempt
with message "boom", every other entity succeeds immediately. -/
def failsW : Int → Nat → Option String :=
  fun e _ => if e = 1 then some "boom" else none

theorem claim_C1_witness :
    ((syncAllEntitiesToCmsGeneric failsW "Product" [1, 2]).success = true
        ↔ (syncAllEntitiesToCmsGeneric failsW "Product" [1, 2]).errorCount = 0)
    ∧ (syncAllEntitiesToCmsGeneric failsW "Product" [1, 2]).successCount
        = (([1, 2] : List Int).filter (fun e => !alwaysFails failsW e)).length
    ∧ (syncAllEntitiesToCmsGeneric failsW "Product" [1, 2]).errorCount
        = (([1, 2] : List Int).filter (alwaysFails failsW)).length
    ∧ (((syncAllEntitiesToCmsGeneric failsW "Product" [1, 2]).errors : List ErrEntry) : Multiset ErrEntry)
        = (((([1, 2] : List Int).filter (alwaysFails failsW)).map (terminalEntry failsW) : List ErrEntry) : Multiset ErrEntry)
    ∧ (∀ ent ∈ (syncAllEntitiesToCmsGeneric failsW "Product" [1, 2]).errors,
        ent.attempts = 5 ∧ ∃ m, ent.error = "Failed after 5 attempts. Last error: " ++ m)
    ∧ (∀ e ∈ ([1, 2] : List Int), alwaysFails failsW e = false →
        ∀ ent ∈ (syncAllEntitiesToCmsGeneric failsW "Product" [1, 2]).errors, ent.entityId ≠ e) :=
  claim_C1 failsW "Product" [1, 2] (by decide)

/-- Claim C2: in every wave, each job of the batch has its attempt counter
incremented exactly once before dispatch, and a job re-enters the queue —
at the tail — exactly when its dispatch failed and its post-increment
attempt counter is still strictly below its `maxAttempts`. -/
theorem claim_C2 (fails : Int → Nat → Option String) (etype : String)
    (acc : Acc) (queue : List Job) :
    ((processWave fails etype acc queue).2
        = queue.drop 10 ++ ((queue.take 10).filter (requeueNow fails)).map (failBump fails))
    ∧ (∀ j : Job, (dispatchJob fails etype j).1.attempts = j.attempts + 1)
    ∧ (∀ j : Job, requeueNow fails j
        = ((fails j.entityId ((dispatchJob fails etype j).1.attempts)).isSome
            && decide ((dispatchJob fails etype j).1.attempts
                        < (dispatchJob fails etype j).1.maxAttempts))) := by
  refine ⟨processWave_queue fails etype acc queue, ?_, ?_⟩
  · intro j
    rcases hres : fails j.entityId (j.attempts + 1) with _ | msg <;>
      simp [dispatchJob, hres]
  · intro j
    rcases hres : fails j.entityId (j.attempts + 1) with _ | msg <;>
      simp [dispatchJob, requeueNow, hres]

theorem claim_C2_witness :
    ((processWave failsW "Product" initialAcc [initialJob 1, initialJob 2]).2
        = ([initialJob 1, initialJob 2] : List Job).drop 10
          ++ ((([initialJob 1, initialJob 2] : List Job).take 10).filter (requeueNow failsW)).map
              (failBump failsW))
    ∧ (∀ j : Job, (dispatchJob failsW "Product" j).1.attempts = j.attempts + 1)
    ∧ (∀ j : Job, requeueNow failsW j
        = ((failsW j.entityId ((dispatchJob failsW "Product" j).1.attempts)).isSome
            && decide ((dispatchJob failsW "Product" j).1.attempts
                        < (dispatchJob failsW "Product" j).1.maxAttempts))) :=
  claim_C2 failsW "Product" initialAcc [initialJob 1, initialJob 2]

/-- Claim C3: as long as the queue invariant holds (cap 5, attempts below
the cap — true throughout a sweep, see `processWave_inv`), every wave
strictly decreases the remaining attempts budget and preserves the
invariant; consequently the loop terminates and every entity of a sweep
ends up counted either as a success or as an error. -/
theorem claim_C3 (fails : Int → Nat → Option String) (etype : String)
    (acc : Acc) (queue : List Job) (ids : List Int)
    (hne : queue ≠ [])
    (hinv : ∀ j ∈ queue, j.maxAttempts = 5 ∧ j.attempts < 5) :
    (attemptsBudget (processWave fails etype acc queue).2 < attemptsBudget queue)
    ∧ (∀ j ∈ (processWave fails etype acc queue).2, j.maxAttempts = 5 ∧ j.attempts < 5)
    ∧ ((syncAllEntitiesToCmsGeneric fails etype ids).successCount
        + (syncAllEntitiesToCmsGeneric fails etype ids).errorCount
        = (syncAllEntitiesToCmsGeneric fails etype ids).totalEntities) := by
  refine ⟨?_, processWave_inv fails etype acc queue hinv, ?_⟩
  · rw [processWave_queue, attemptsBudget_append]
    have htake : queue.take 10 ≠ [] := by
      cases queue with
      | nil => exact absurd rfl hne
      | cons j bs => simp
    have hinvT : ∀ j ∈ queue.take 10, j.maxAttempts = 5 ∧ j.attempts < 5 :=
      fun j hj => hinv j (List.take_subset 10 queue hj)
    have hlt := requeued_budget_lt fails (queue.take 10) htake hinvT
    have hsplit : attemptsBudget queue
        = attemptsBudget (queue.take 10) + attemptsBudget (queue.drop 10) := by
      conv_lhs => rw [← List.take_append_drop 10 queue]
      exact attemptsBudget_append _ _
    omega
  · by_cases hl : ids.length = 0
    · simp [syncAllEntitiesToCmsGeneric, hl]
    · have hinv0 : ∀ j ∈ ids.map initialJob, j.maxAttempts = 5 ∧ j.attempts < 5 := by
        intro j hj
        rcases List.mem_map.mp hj with ⟨e, _, rfl⟩
        exact ⟨rfl, by simp [initialJob]⟩
      obtain ⟨h1, h2, _⟩ := sweepLoop_spec fails etype (sweepMeasure (ids.map initialJob))
        (ids.map initialJob) initialAcc le_rfl hinv0
      simp only [syncAllEntitiesToCmsGeneric, hl, if_false]
      rw [h1, h2]
      simp only [initialAcc, Nat.zero_add]
      have := filter_length_split (fun j => jobWillFail fails j) (ids.map initialJob)
      simp only [List.length_map] at this
      omega

theorem claim_C3_witness :
    (attemptsBudget (processWave failsW "Product" initialAcc [initialJob 1, initialJob 2]).2
        < attemptsBudget [initialJob 1, initialJob 2])
    ∧ (∀ j ∈ (processWave failsW "Product" initialAcc [initialJob 1, initialJob 2]).2,
        j.maxAttempts = 5 ∧ j.attempts < 5)
    ∧ ((syncAllEntitiesToCmsGeneric failsW "Product" [1, 2]).successCount
        + (syncAllEntitiesToCmsGeneric failsW "Product" [1, 2]).errorCount
        = (syncAllEntitiesToCmsGeneric failsW "Product" [1, 2]).totalEntities) :=
  claim_C3 failsW "Product" initialAcc [initialJob 1, initialJob 2] [1, 2]
    (by simp [initialJob]) (by decide)

/-- Claim C9: every job dispatched by a bulk sweep is dispatched with
operation type "update" (never "create" or "delete") and with `retryCount`
equal to the dispatched job's attempt counter minus one; in particular this
holds for every single dispatch the wave mapper performs. -/
theorem claim_C9 (fails : Int → Nat → Option String) (etype : String) (ids : List Int) :
    (∀ p ∈ sweepTrace fails etype ids,
      p.2.operationType = "update" ∧ p.2.retryCount = p.1.attempts - 1 ∧
      p.2.entityId = p.1.entityId ∧ p.2.entityType = etype)
    ∧ (∀ j : Job,
        (dispatchJob fails etype j).2.1.operationType = "update" ∧
        (dispatchJob fails etype j).2.1.retryCount = (dispatchJob fails etype j).1.attempts - 1 ∧
        (dispatchJob fails etype j).2.1.entityId = (dispatchJob fails etype j).1.entityId ∧
        (dispatchJob fails etype j).2.1.entityType = etype) := by
  constructor
  · exact sweepLoop_trace fails etype (sweepMeasure (ids.map initialJob))
      (ids.map initialJob) initialAcc le_rfl (by intro p hp; simp [initialAcc] at hp)
  · intro j
    rcases hres : fails j.entityId (j.attempts + 1) with _ | msg <;>
      simp [dispatchJob, hres]

theorem claim_C9_witness :
    (∀ p ∈ sweepTrace failsW "Product" [1, 2],
      p.2.operationType = "update" ∧ p.2.retryCount = p.1.attempts - 1 ∧
      p.2.entityId = p.1.entityId ∧ p.2.entityType = "Product")
    ∧ (∀ j : Job,
        (dispatchJob failsW "Product" j).2.1.operationType = "update" ∧
        (dispatchJob failsW "Product" j).2.1.retryCount
          = (dispatchJob failsW "Product" j).1.attempts - 1 ∧
        (dispatchJob failsW "Product" j).2.1.entityId
          = (dispatchJob failsW "Product" j).1.entityId ∧
        (dispatchJob failsW "Product" j).2.1.entityType = "Product") :=
  claim_C9 failsW "Product" [1, 2]

/-- Claim C5: an "update" sync of an entity with no matching remote document
(same `vendureId` and document-type tag) falls back to the create path: it
yields the same resulting remote document store (and the same fresh-id
counter and the same result) as a "create" sync of the same entity, and it
is not reported as an error. -/
theorem claim_C5 (st : RemoteState) (p : Product) (lang : String)
    (productSlug : Option String) (t : Translation)
    (ht : getTranslationByLanguage p.translations lang = some t)
    (hq : st.queryFails = false)
    (hm : st.mutateFails = false)
    (hnone : findLocal st.docs DOCUMENT_TYPE.product p.id = none) :
    ((syncProduct st p lang "update" productSlug).1.docs
        = (syncProduct st p lang "create" productSlug).1.docs)
    ∧ ((syncProduct st p lang "update" productSlug).1.nextId
        = (syncProduct st p lang "create" productSlug).1.nextId)
    ∧ ((syncProduct st p lang "update" productSlug).2
        = (syncProduct st p lang "create" productSlug).2)
    ∧ (syncProduct st p lang "update" productSlug).2 = Except.ok () := by
  simp [syncProduct, validateTranslations, ht, updateDocumentFromProduct,
    createDocumentFromProduct, findDocumentByVendureId, sanityQueryOne, pushLog,
    hq, hnone, transformProductData, sanityMutateCreate, hm]

theorem claim_C5_witness :
    ((syncProduct { docs := [], nextId := 0, queryFails := false, mutateFails := false, log := [] }
        { id := 42, translations := [{ languageCode := "en", name := "Widget", slug := "widget" }] }
        "en" "update" none).1.docs
      = (syncProduct { docs := [], nextId := 0, queryFails := false, mutateFails := false, log := [] }
          { id := 42, translations := [{ languageCode := "en", name := "Widget", slug := "widget" }] }
          "en" "create" none).1.docs)
    ∧ ((syncProduct { docs := [], nextId := 0, queryFails := false, mutateFails := false, log := [] }
          { id := 42, translations := [{ languageCode := "en", name := "Widget", slug := "widget" }] }
          "en" "update" none).1.nextId
      = (syncProduct { docs := [], nextId := 0, queryFails := false, mutateFails := false, log := [] }
          { id := 42, translations := [{ languageCode := "en", name := "Widget", slug := "widget" }] }
          "en" "create" none).1.nextId)
    ∧ ((syncProduct { docs := [], nextId := 0, queryFails := false, mutateFails := false, log := [] }
          { id := 42, translations := [{ languageCode := "en", name := "Widget", slug := "widget" }] }
          "en" "update" none).2
      = (syncProduct { docs := [], nextId := 0, queryFails := false, mutateFails := false, log := [] }
          { id := 42, translations := [{ languageCode := "en", name := "Widget", slug := "widget" }] }
          "en" "create" none).2)
    ∧ (syncProduct { docs := [], nextId := 0, queryFails := false, mutateFails := false, log := [] }
        { id := 42, translations := [{ languageCode := "en", name := "Widget", slug := "widget" }] }
        "en" "update" none).2 = Except.ok () :=
  claim_C5 { docs := [], nextId := 0, queryFails := false, mutateFails := false, log := [] }
    { id := 42, translations := [{ languageCode := "en", name := "Widget", slug := "widget" }] }
    "en" none { languageCode := "en", name := "Widget", slug := "widget" }
    rfl rfl rfl rfl

/-- Claim C6: a "delete" sync of an entity with no matching remote document
is a no-op: it returns successfully, leaves the remote store untouched, and
issues exactly one lookup query and zero mutating HTTP calls. -/
theorem claim_C6 (st : RemoteState) (p : Product) (lang : String)
    (productSlug : Option String) (t : Translation)
    (ht : getTranslationByLanguage p.translations lang = some t)
    (hq : st.queryFails = false)
    (hnone : findLocal st.docs DOCUMENT_TYPE.product p.id = none) :
    ((syncProduct st p lang "delete" productSlug).2 = Except.ok ())
    ∧ ((syncProduct st p lang "delete" productSlug).1.docs = st.docs)
    ∧ ((syncProduct st p lang "delete" productSlug).1.nextId = st.nextId)
    ∧ ((syncProduct st p lang "delete" productSlug).1.log
        = st.log ++ [SanityRequest.queryOne DOCUMENT_TYPE.product p.id])
    ∧ ((syncProduct st p lang "delete" productSlug).1.log.filter SanityRequest.isMutation
        = st.log.filter SanityRequest.isMutation) := by
  simp [syncProduct, validateTranslations, ht, deleteDocumentFromProduct,
    findDocumentByVendureId, sanityQueryOne, pushLog, hq, hnone,
    SanityRequest.isMutation]

theorem claim_C6_witness :
    ((syncProduct { docs := [], nextId := 0, queryFails := false, mutateFails := false, log := [] }
        { id := 42, translations := [{ languageCode := "en", name := "Widget", slug := "widget" }] }
        "en" "delete" none).2 = Except.ok ())
    ∧ ((syncProduct { docs := [], nextId := 0, queryFails := false, mutateFails := false, log := [] }
        { id := 42, translations := [{ languageCode := "en", name := "Widget", slug := "widget" }] }
        "en" "delete" none).1.docs
      = ({ docs := [], nextId := 0, queryFails := false, mutateFails := false, log := [] } : RemoteState).docs)
    ∧ ((syncProduct { docs := [], nextId := 0, queryFails := false, mutateFails := false, log := [] }
        { id := 42, translations := [{ languageCode := "en", name := "Widget", slug := "widget" }] }
        "en" "delete" none).1.nextId
      = ({ docs := [], nextId := 0, queryFails := false, mutateFails := false, log := [] } : RemoteState).nextId)
    ∧ ((syncProduct { docs := [], nextId := 0, queryFails := false, mutateFails := false, log := [] }
        { id := 42, translations := [{ languageCode := "en", name := "Widget", slug := "widget" }] }
        "en" "delete" none).1.log
      = ({ docs := [], nextId := 0, queryFails := false, mutateFails := false, log := [] } : RemoteState).log
        ++ [SanityRequest.queryOne DOCUMENT_TYPE.product 42])
    ∧ ((syncProduct { docs := [], nextId := 0, queryFails := false, mutateFails := false, log := [] }
        { id := 42, translations := [{ languageCode := "en", name := "Widget", slug := "widget" }] }
        "en" "delete" none).1.log.filter SanityRequest.isMutation
      = ({ docs := [], nextId := 0, queryFails := false, mutateFails := false, log := [] } : RemoteState).log.filter
          SanityRequest.isMutation) :=
  claim_C6 { docs := [], nextId := 0, queryFails := false, mutateFails := false, log := [] }
    { id := 42, translations := [{ languageCode := "en", name := "Widget", slug := "widget" }] }
    "en" none { languageCode := "en", name := "Widget", slug := "widget" }
    rfl rfl rfl

/-- Claim C7: an entity with no translation in the default language makes
each transform yield "skip" (`none`) — the variant transform before any
reference-resolution lookup — and the create path then issues no remote
call at all: the remote state (documents, counter and request log) is
completely unchanged and the operation returns successfully. -/
theorem claim_C7 (st : RemoteState) (db : Int → Option Product)
    (p : Product) (v : ProductVariant) (c : Collection) (lang : String)
    (pslug cslug : Option String) (vslug : String) (cols : List Collection)
    (hp : getTranslationByLanguage p.translations lang = none)
    (hv : getTranslationByLanguage v.translations lang = none)
    (hc : getTranslationByLanguage c.translations lang = none) :
    transformProductData p lang pslug = none
    ∧ transformVariantData st db v lang vslug cols = (st, none)
    ∧ transformCollectionData c lang cslug = none
    ∧ createDocumentFromProduct st p lang pslug = (st, Except.ok ())
    ∧ createDocumentFromVariant st db v lang vslug cols = (st, Except.ok ())
    ∧ createDocumentFromCollection st c lang cslug = (st, Except.ok ()) := by
  simp [transformProductData, transformVariantData, transformCollectionData,
    createDocumentFromProduct, createDocumentFromVariant, createDocumentFromCollection,
    hp, hv, hc]

theorem claim_C7_witness :
    transformProductData { id := 7, translations := [] } "en" none = none
    ∧ transformVariantData
        { docs := [], nextId := 0, queryFails := false, mutateFails := false, log := [] }
        (fun _ => none) { id := 8, productId := 7, translations := [], productTranslations := [] }
        "en" "variant-8" []
      = ({ docs := [], nextId := 0, queryFails := false, mutateFails := false, log := [] }, none)
    ∧ transformCollectionData { id := 9, translations := [] } "en" none = none
    ∧ createDocumentFromProduct
        { docs := [], nextId := 0, queryFails := false, mutateFails := false, log := [] }
        { id := 7, translations := [] } "en" none
      = ({ docs := [], nextId := 0, queryFails := false, mutateFails := false, log := [] }, Except.ok ())
    ∧ createDocumentFromVariant
        { docs := [], nextId := 0, queryFails := false, mutateFails := false, log := [] }
        (fun _ => none) { id := 8, productId := 7, translations := [], productTranslations := [] }
        "en" "variant-8" []
      = ({ docs := [], nextId := 0, queryFails := false, mutateFails := false, log := [] }, Except.ok ())
    ∧ createDocumentFromCollection
        { docs := [], nextId := 0, queryFails := false, mutateFails := false, log := [] }
        { id := 9, translations := [] } "en" none
      = ({ docs := [], nextId := 0, queryFails := false, mutateFails := false, log := [] }, Except.ok ()) :=
  claim_C7 { docs := [], nextId := 0, queryFails := false, mutateFails := false, log := [] }
    (fun _ => none) { id := 7, translations := [] }
    { id := 8, productId := 7, translations := [], productTranslations := [] }
    { id := 9, translations := [] } "en" none none "variant-8" [] rfl rfl rfl

/-- Claim C8: for a product with a translation in the default language the
transform yields exactly the document with the remote-product type tag,
`vendureId` equal to the product's catalog id, `title` the translated name,
and `slug.current` the precomputed slug when one was passed, else the
translation's slug; in particular, under the slug the orchestrator actually
passes (the translation's own slug), `slug.current` is the translation's
slug — for translation name "Widget" and slug "widget" the result is
exactly the "Widget"/"widget" document. -/
theorem claim_C8 (p : Product) (lang : String) (productSlug : Option String)
    (t : Translation)
    (ht : getTranslationByLanguage p.translations lang = some t) :
    (transformProductData p lang productSlug
        = some { _type := DOCUMENT_TYPE.product, vendureId := p.id, title := t.name,
                 slug := { current := some (productSlug.getD t.slug) } })
    ∧ (transformProductData p lang (getSlugByLanguage p.translations lang)
        = some { _type := DOCUMENT_TYPE.product, vendureId := p.id, title := t.name,
                 slug := { current := some t.slug } }) := by
  have hslug : getSlugByLanguage p.translations lang = some t.slug := by
    simp [getSlugByLanguage, ht]
  constructor
  · cases productSlug <;> simp [transformProductData, ht, hslug, Option.orElse]
  · simp [transformProductData, ht, hslug, Option.orElse]

theorem claim_C8_witness :
    (transformProductData
        { id := 42, translations := [{ languageCode := "en", name := "Widget", slug := "widget" }] }
        "en" none
      = some { _type := DOCUMENT_TYPE.product, vendureId := 42, title := "Widget",
               slug := { current := some (Option.getD none "widget") } })
    ∧ (transformProductData
        { id := 42, translations := [{ languageCode := "en", name := "Widget", slug := "widget" }] }
        "en" (getSlugByLanguage [{ languageCode := "en", name := "Widget", slug := "widget" }] "en")
      = some { _type := DOCUMENT_TYPE.product, vendureId := 42, title := "Widget",
               slug := { current := some "widget" } }) :=
  claim_C8 { id := 42, translations := [{ languageCode := "en", name := "Widget", slug := "widget" }] }
    "en" none { languageCode := "en", name := "Widget", slug := "widget" } rfl

/-- Claim C10: `findDocumentByVendureId` returns `none` both when no remote
document matches and when the remote query itself fails (the error is
swallowed); consequently, under a failing query, "update" takes exactly the
create-fallback path (it equals `createDocumentFromProduct` after logging
the lookup request) and "delete" is a no-op that succeeds without issuing
any mutating call. -/
theorem claim_C10 (st st2 : RemoteState) (p : Product) (lang : String)
    (productSlug : Option String) (vid : Int) (ty : String)
    (hq : st.queryFails = true)
    (hq2 : st2.queryFails = false)
    (hnone2 : findLocal st2.docs ty vid = none) :
    ((findDocumentByVendureId st2 vid ty).2 = none)
    ∧ ((findDocumentByVendureId st vid ty).2 = none)
    ∧ (updateDocumentFromProduct st p lang productSlug
        = createDocumentFromProduct
            (pushLog st (SanityRequest.queryOne DOCUMENT_TYPE.product p.id)) p lang productSlug)
    ∧ ((deleteDocumentFromProduct st p).2 = Except.ok ())
    ∧ ((deleteDocumentFromProduct st p).1.docs = st.docs)
    ∧ ((deleteDocumentFromProduct st p).1.log.filter SanityRequest.isMutation
        = st.log.filter SanityRequest.isMutation) := by
  refine ⟨?_, ?_, ?_, ?_, ?_, ?_⟩ <;>
    simp [findDocumentByVendureId, sanityQueryOne, pushLog, hq, hq2, hnone2,
      updateDocumentFromProduct, deleteDocumentFromProduct, SanityRequest.isMutation]

theorem claim_C10_witness :
    ((findDocumentByVendureId
        { docs := [], nextId := 0, queryFails := false, mutateFails := false, log := [] }
        1 DOCUMENT_TYPE.product).2 = none)
    ∧ ((findDocumentByVendureId
        { docs := [], nextId := 0, queryFails := true, mutateFails := false, log := [] }
        1 DOCUMENT_TYPE.product).2 = none)
    ∧ (updateDocumentFromProduct
        { docs := [], nextId := 0, queryFails := true, mutateFails := false, log := [] }
        { id := 42, translations := [{ languageCode := "en", name := "Widget", slug := "widget" }] }
        "en" none
      = createDocumentFromProduct
          (pushLog { docs := [], nextId := 0, queryFails := true, mutateFails := false, log := [] }
            (SanityRequest.queryOne DOCUMENT_TYPE.product 42))
          { id := 42, translations := [{ languageCode := "en", name := "Widget", slug := "widget" }] }
          "en" none)
    ∧ ((deleteDocumentFromProduct
        { docs := [], nextId := 0, queryFails := true, mutateFails := false, log := [] }
        { id := 42, translations := [{ languageCode := "en", name := "Widget", slug := "widget" }] }).2
      = Except.ok ())
    ∧ ((deleteDocumentFromProduct
        { docs := [], nextId := 0, queryFails := true, mutateFails := false, log := [] }
        { id := 42, translations := [{ languageCode := "en", name := "Widget", slug := "widget" }] }).1.docs
      = ({ docs := [], nextId := 0, queryFails := true, mutateFails := false, log := [] } : RemoteState).docs)
    ∧ ((deleteDocumentFromProduct
        { docs := [], nextId := 0, queryFails := true, mutateFails := false, log := [] }
        { id := 42, translations := [{ languageCode := "en", name := "Widget", slug := "widget" }] }).1.log.filter
          SanityRequest.isMutation
      = ({ docs := [], nextId := 0, queryFails := true, mutateFails := false, log := [] } : RemoteState).log.filter
          SanityRequest.isMutation) :=
  claim_C10 { docs := [], nextId := 0, queryFails := true, mutateFails := false, log := [] }
    { docs := [], nextId := 0, queryFails := false, mutateFails := false, log := [] }
    { id := 42, translations := [{ languageCode := "en", name := "Widget", slug := "widget" }] }
    "en" none 1 DOCUMENT_TYPE.product rfl rfl rfl

/-- Claim C4: no exception escapes a per-entity sync wrapper or the bulk
sweep.  In the model the wrappers return a plain `SyncResponse` (not an
`Except`) — totality is their type — and this theorem pins down the catch
behaviour: whenever a wrapper's try-block throws, the wrapper returns
`success := false` with the error message wrapped in the corresponding
"<Kind> sync failed: " prefix; and when the bulk sweep's setup load throws,
the sweep returns a `success := false` summary with the single synthetic
error entry `(entityId := -1, attempts := 1)`. -/
theorem claim_C4 (envP : ProductSyncEnv) (envV : VariantSyncEnv) (envC : CollectionSyncEnv)
    (st stP stV stC : RemoteState) (jd : SyncJobData)
    (mP mV mC m : String) (fails : Int → Nat → Option String) (etype : String)
    (hP : syncProductToCmsBody envP st jd = (stP, Except.error mP))
    (hV : syncVariantToCmsBody envV st jd = (stV, Except.error mV))
    (hC : syncCollectionToCmsBody envC st jd = (stC, Except.error mC)) :
    (syncProductToCms envP st jd
        = (stP, { success := false, message := "Product sync failed: " ++ mP }))
    ∧ (syncVariantToCms envV st jd
        = (stV, { success := false, message := "Variant sync failed: " ++ mV }))
    ∧ (syncCollectionToCms envC st jd
        = (stC, { success := false, message := "Collection sync failed: " ++ mC }))
    ∧ (syncAllEntitiesToCmsGenericE fails etype (Except.error m)
        = { success := false, totalEntities := 0, successCount := 0, errorCount := 1,
            errors := [{ entityId := -1, error := m, attempts := 1 }] }) := by
  refine ⟨?_, ?_, ?_, rfl⟩
  · simp [syncProductToCms, hP]
  · simp [syncVariantToCms, hV]
  · simp [syncCollectionToCms, hC]

theorem claim_C4_witness :
    (syncProductToCms { loadProduct := Except.error "db down", defaultLang := Except.ok "en" }
        { docs := [], nextId := 0, queryFails := false, mutateFails := false, log := [] }
        { entityType := "Product", entityId := 1, operationType := "update", retryCount := 0 }
      = ({ docs := [], nextId := 0, queryFails := false, mutateFails := false, log := [] },
          { success := false, message := "Product sync failed: " ++ "db down" }))
    ∧ (syncVariantToCms
        { defaultLang := Except.error "channel down", makeCtx := Except.ok (),
          loadVariant := Except.ok none, collectionsLookup := Except.ok [], db := fun _ => none }
        { docs := [], nextId := 0, queryFails := false, mutateFails := false, log := [] }
        { entityType := "Product", entityId := 1, operationType := "update", retryCount := 0 }
      = ({ docs := [], nextId := 0, queryFails := false, mutateFails := false, log := [] },
          { success := false, message := "Variant sync failed: " ++ "channel down" }))
    ∧ (syncCollectionToCms
        { defaultLang := Except.error "channel down", makeCtx := Except.ok (),
          loadCollection := Except.ok none }
        { docs := [], nextId := 0, queryFails := false, mutateFails := false, log := [] }
        { entityType := "Product", entityId := 1, operationType := "update", retryCount := 0 }
      = ({ docs := [], nextId := 0, queryFails := false, mutateFails := false, log := [] },
          { success := false, message := "Collection sync failed: " ++ "channel down" }))
    ∧ (syncAllEntitiesToCmsGenericE failsW "Product" (Except.error "load failed")
        = { success := false, totalEntities := 0, successCount := 0, errorCount := 1,
            errors := [{ entityId := -1, error := "load failed", attempts := 1 }] }) :=
  claim_C4 { loadProduct := Except.error "db down", defaultLang := Except.ok "en" }
    { defaultLang := Except.error "channel down", makeCtx := Except.ok (),
      loadVariant := Except.ok none, collectionsLookup := Except.ok [], db := fun _ => none }
    { defaultLang := Except.error "channel down", makeCtx := Except.ok (),
      loadCollection := Except.ok none }
    { docs := [], nextId := 0, queryFails := false, mutateFails := false, log := [] }
    { docs := [], nextId := 0, queryFails := false, mutateFails := false, log := [] }
    { docs := [], nextId := 0, queryFails := false, mutateFails := false, log := [] }
    { docs := [], nextId := 0, queryFails := false, mutateFails := false, log := [] }
    { entityType := "Product", entityId := 1, operationType := "update", retryCount := 0 }
    "db down" "channel down" "channel down" "load failed" failsW "Product"
    rfl rfl rfl

end Vendure
